import Mathlib

/-!
Verification of the link-in-bio site generator (`scraper.py`).

The development shallowly embeds the extraction and normalization code:
Python values coming out of `json.loads` become the inductive `Json`;
places where the Python code raises become `Except PyErr` results; pure
string helpers (`str.strip`, `str.lower`, `str.title`, `str.replace`,
`urllib.parse.urlparse(...).netloc`) are reproduced as executable Lean
functions restricted to the ASCII data the program handles.
-/

set_option maxRecDepth 40000

/-- A Python value as produced by `json.loads`: `None`, `bool`, `int`,
`str`, `list`, `dict`.  Numeric literals are restricted to integers,
which covers every payload this program consumes. -/
inductive Json where
  | null : Json
  | bool : Bool → Json
  | num : Int → Json
  | str : String → Json
  | arr : List Json → Json
  | obj : List (String × Json) → Json

/-- The Python exceptions the embedded code can raise. -/
inductive PyErr where
  | valueError : String → PyErr
  | jsonDecodeError : PyErr
  | keyError : String → PyErr
  | typeError : PyErr
  | attributeError : PyErr
deriving DecidableEq

/-- Python whitespace as recognized by `str.strip()` (ASCII subset). -/
def isPyWs (c : Char) : Bool :=
  c = ' ' || c = '\t' || c = '\n' || c = '\r' || c = '\x0b' || c = '\x0c'

/-- Model of `str.strip()` on a character list. -/
def pyStripList (l : List Char) : List Char :=
  ((l.dropWhile isPyWs).reverse.dropWhile isPyWs).reverse

/-- Model of `str.strip()`. -/
def pyStrip (s : String) : String := String.mk (pyStripList s.data)

/-- ASCII lower-casing of one character, as `str.lower()` does on ASCII. -/
def asciiLower (c : Char) : Char :=
  if 'A' ≤ c ∧ c ≤ 'Z' then Char.ofNat (c.toNat + 32) else c

/-- ASCII upper-casing of one character, as `str.upper()` does on ASCII. -/
def asciiUpper (c : Char) : Char :=
  if 'a' ≤ c ∧ c ≤ 'z' then Char.ofNat (c.toNat - 32) else c

/-- Model of `str.lower()` (ASCII). -/
def pyLower (s : String) : String := String.mk (s.data.map asciiLower)

/-- Model of `str.upper()` (ASCII). -/
def pyUpper (s : String) : String := String.mk (s.data.map asciiUpper)

/-- Helper for `str.title()`: the boolean records whether the previous
character was a cased (ASCII alphabetic) character. -/
def pyTitleAux : Bool → List Char → List Char
  | _, [] => []
  | prevAlpha, c :: cs =>
    if c.isAlpha then
      (if prevAlpha then asciiLower c else asciiUpper c) :: pyTitleAux true cs
    else
      c :: pyTitleAux false cs

/-- Model of `str.title()` (ASCII): upper-case a letter after a non-letter,
lower-case a letter after a letter. -/
def pyTitle (s : String) : String := String.mk (pyTitleAux false s.data)

/-- Helper for `str.replace`: replace non-overlapping occurrences of
`pat` left to right; the fuel is the length of the scanned list, which
suffices because `pat` is nonempty at every use site. -/
def replaceAllAux (pat rep : List Char) : Nat → List Char → List Char
  | 0, l => l
  | fuel + 1, l =>
    match l with
    | [] => []
    | c :: cs =>
      if pat.isPrefixOf l ∧ 0 < pat.length then
        rep ++ replaceAllAux pat rep fuel (l.drop pat.length)
      else
        c :: replaceAllAux pat rep fuel cs

/-- Model of `s.replace(pat, rep)` for nonempty `pat`: every occurrence is
replaced, not only a leading one. -/
def pyReplace (s pat rep : String) : String :=
  String.mk (replaceAllAux pat.data rep.data s.data.length s.data)

/-- Model of `s.split(".")[0]`: the portion of `s` before the first dot. -/
def beforeDot (s : String) : String :=
  String.mk (s.data.takeWhile (fun c => c != '.'))

/-- Python truthiness of a `Json` value. -/
def pyFalsy : Json → Bool
  | .null => true
  | .bool b => !b
  | .num n => n == 0
  | .str s => s == ""
  | .arr xs => xs.isEmpty
  | .obj kvs => kvs.isEmpty

/-- Model of `type(v).__name__` for a `Json` value. -/
def pyTypeName : Json → String
  | .null => "NoneType"
  | .bool _ => "bool"
  | .num _ => "int"
  | .str _ => "str"
  | .arr _ => "list"
  | .obj _ => "dict"

/-- Whether a `Json` value is a mapping (`dict`). -/
def isObjB : Json → Bool
  | .obj _ => true
  | _ => false

/-- Dictionary lookup: the last binding of a key wins, matching the way
`json.loads` builds a `dict` from (possibly duplicated) object keys. -/
def objGet (kvs : List (String × Json)) (k : String) : Option Json :=
  kvs.foldl (fun acc p => if p.1 = k then some p.2 else acc) none

/-- The Python idiom `d.get(key) or ""`: an absent or falsy field
becomes the empty string, anything else passes through unchanged. -/
def orEmptyStr (v : Option Json) : Json :=
  match v with
  | none => .str ""
  | some j => if pyFalsy j then .str "" else j

/-- Characters allowed in a URL scheme by `urllib.parse.urlsplit`. -/
def schemeChar (c : Char) : Bool :=
  c.isAlpha || c.isDigit || c = '+' || c = '-' || c = '.'

/-- Scheme removal as done by `urllib.parse.urlsplit`: if a colon occurs
at a positive position and everything before it is made of scheme
characters, drop through the colon. -/
def stripScheme (l : List Char) : List Char :=
  let pre := l.takeWhile (fun c => c != ':')
  if pre.length = l.length then l
  else if pre.isEmpty then l
  else if pre.all schemeChar then l.drop (pre.length + 1) else l

/-- Model of `urllib.parse.urlparse(u).netloc`: after scheme removal the
authority is present only behind a leading `//` and extends to the first
`/`, `?` or `#`; mismatched square brackets raise `ValueError`
("Invalid IPv6 URL"), which the error case records. -/
def netlocOf (u : String) : Except Unit String :=
  let rest := stripScheme u.data
  if ['/', '/'].isPrefixOf rest then
    let nl := (rest.drop 2).takeWhile (fun c => !(c = '/' || c = '?' || c = '#'))
    if (nl.contains '[') != (nl.contains ']') then .error ()
    else .ok (String.mk nl)
  else .ok ""

/-- The `SUBTITLE_OVERRIDES` table from `scraper.py`. -/
def SUBTITLE_OVERRIDES : List (String × String) :=
  [ ("last.fm", "Listening history & scrobbles."),
    ("goodreads", "Books I\u2019m reading and want to read."),
    ("flickr", "Photos and visual notes."),
    ("steam", "Games I play when I\u2019m not reading papers."),
    ("roadmap.sh", "Developer roadmaps I track and recommend."),
    ("streamlit", "Apps and experiments built with data."),
    ("kaggle", "Datasets, notebooks and ML experiments."),
    ("strava", "Tracking rides and runs.") ]

/-- The host-derived lookup key of `_subtitle_for`: every occurrence of
"www." removed from the netloc, lower-cased, then the portion before
the first dot. -/
def hostKey (nl : String) : String :=
  beforeDot (pyLower (pyReplace nl "www." ""))

/-- Model of `_subtitle_for(title, url)`: override table on the trimmed
lower-cased title, then on the host key of the url, else a generic
"Visit" line.  The error case records the `ValueError` that
`urlparse` raises on a mismatched-bracket authority. -/
def subtitleFor (title : String) (url : Option String) : Except PyErr String :=
  match SUBTITLE_OVERRIDES.lookup (pyLower (pyStrip title)) with
  | some s => .ok s
  | none =>
    match url with
    | none => .ok ("Visit " ++ title)
    | some u =>
      if u = "" then .ok ("Visit " ++ title)
      else
        match netlocOf u with
        | .error _ => .error (.valueError "Invalid IPv6 URL")
        | .ok nl =>
          match SUBTITLE_OVERRIDES.lookup (hostKey nl) with
          | some s => .ok s
          | none => .ok ("Visit " ++ title)

/-- The subtitle as computed inside `generate_html`: any exception from
`_subtitle_for` is caught and replaced by the generic "Visit" line. -/
def subtitleCaught (title : String) (url : Option String) : String :=
  match subtitleFor title url with
  | .ok s => s
  | .error _ => "Visit " ++ title

/-- Model of `_display_title(link)`.  A truthy non-string `title` field makes
`.strip()` raise `AttributeError`; a truthy non-string `url` field makes
`urlparse` raise; a mismatched-bracket authority raises `ValueError`.
Otherwise the trimmed title is used when non-blank, else a title is
derived from the host, else the literal "Link". -/
def displayTitleE (kvs : List (String × Json)) : Except PyErr String :=
  match orEmptyStr (objGet kvs "title") with
  | .str s =>
    if pyStrip s = "" then
      match orEmptyStr (objGet kvs "url") with
      | .str u =>
        match netlocOf u with
        | .error _ => .error (.valueError "Invalid IPv6 URL")
        | .ok nl =>
          if pyReplace nl "www." "" = "" then .ok "Link"
          else
            if pyTitle (pyReplace (beforeDot (pyReplace nl "www." "")) "-" " ") = "" then .ok "Link"
            else .ok (pyTitle (pyReplace (beforeDot (pyReplace nl "www." "")) "-" " "))
      | _ => .error .attributeError
    else .ok (pyStrip s)
  | _ => .error .attributeError

/-- The host-to-title fallback of `_display_title`, factored out: remove
every "www.", take the part before the first dot, hyphens to spaces,
title-case, with "Link" substituted for an empty result. -/
def hostFallbackTitle (nl : String) : String :=
  if pyReplace nl "www." "" = "" then "Link"
  else
    if pyTitle (pyReplace (beforeDot (pyReplace nl "www." "")) "-" " ") = "" then "Link"
    else pyTitle (pyReplace (beforeDot (pyReplace nl "www." "")) "-" " ")

/-- Model of `_safe_link_url(value)`: the stripped string when the value is a
string with non-blank strip, otherwise `None`. -/
def safeLinkUrl (v : Option Json) : Option String :=
  match v with
  | some (.str s) => if pyStrip s = "" then none else some (pyStrip s)
  | _ => none

/-- The normalized link url of `generate_html`: `raw_url or "#"`. -/
def urlNormalized (v : Option Json) : String :=
  (safeLinkUrl v).getD "#"

/-- A normalized link entry as rendered by `generate_html`. -/
structure LinkItem where
  displayTitle : String
  url : String
  subtitle : String
deriving DecidableEq

/-- A normalized social-link entry as rendered by `generate_html`. -/
structure SocialItem where
  type : String
  url : String
  icon : String
deriving DecidableEq

/-- The icon glyph: first character of the type string, else "?". -/
def iconOf (ty : String) : String :=
  match ty.data with
  | [] => "?"
  | c :: _ => String.mk [c]

/-- The links loop of `generate_html`, carrying the running index used
in the skip diagnostics.  Each entry that is not a mapping is skipped
and its position and type name recorded; each mapping yields a
`LinkItem`, or an uncaught exception from `_display_title`. -/
def normalizeLinksAux : Nat → List Json → Except PyErr (List LinkItem × List (Nat × String))
  | _, [] => .ok ([], [])
  | idx, j :: rest =>
    match j with
    | .obj kvs =>
      match displayTitleE kvs with
      | .error e => .error e
      | .ok title =>
        match normalizeLinksAux (idx + 1) rest with
        | .error e => .error e
        | .ok (items, diags) =>
          .ok (⟨title, urlNormalized (objGet kvs "url"),
                subtitleCaught title (safeLinkUrl (objGet kvs "url"))⟩ :: items, diags)
    | _ =>
      match normalizeLinksAux (idx + 1) rest with
      | .error e => .error e
      | .ok (items, diags) => .ok (items, (idx, pyTypeName j) :: diags)

/-- The skip diagnostics the links loop prints: position and type name
of every entry that is not a mapping. -/
def diagsOf : Nat → List Json → List (Nat × String)
  | _, [] => []
  | idx, j :: rest =>
    if isObjB j then diagsOf (idx + 1) rest
    else (idx, pyTypeName j) :: diagsOf (idx + 1) rest

/-- An entry on which the links loop cannot raise: either not a mapping
(it is skipped), or a mapping on which `_display_title` succeeds. -/
def linkEntryOk (j : Json) : Bool :=
  match j with
  | .obj kvs =>
    match displayTitleE kvs with
    | .ok _ => true
    | .error _ => false
  | _ => true

/-- The social-links loop of `generate_html`: skip non-mappings, skip
entries without a usable url, and otherwise read the `type` field with
default "LINK" — `.upper()` on a present non-string `type` raises
`AttributeError`. -/
def normalizeSocial : List Json → Except PyErr (List SocialItem)
  | [] => .ok []
  | j :: rest =>
    match j with
    | .obj kvs =>
      match safeLinkUrl (objGet kvs "url") with
      | none => normalizeSocial rest
      | some u =>
        match (objGet kvs "type").getD (.str "LINK") with
        | .str s =>
          match normalizeSocial rest with
          | .error e => .error e
          | .ok items => .ok (⟨pyUpper s, u, iconOf (pyUpper s)⟩ :: items)
        | _ => .error .attributeError
    | _ => normalizeSocial rest

/-- Per-entry emission of the social-links loop, for entries on which
the loop cannot raise. -/
def emitSocial (j : Json) : Option SocialItem :=
  match j with
  | .obj kvs =>
    match safeLinkUrl (objGet kvs "url") with
    | none => none
    | some u =>
      match objGet kvs "type" with
      | none => some ⟨pyUpper "LINK", u, iconOf (pyUpper "LINK")⟩
      | some (.str s) => some ⟨pyUpper s, u, iconOf (pyUpper s)⟩
      | some _ => none
  | _ => none

/-- An entry on which the social-links loop cannot raise: anything that
is not a mapping, lacks a usable url, or whose `type` field is absent or
a string. -/
def socialEntryOk (j : Json) : Bool :=
  match j with
  | .obj kvs =>
    match safeLinkUrl (objGet kvs "url") with
    | none => true
    | some _ =>
      match objGet kvs "type" with
      | none => true
      | some (.str _) => true
      | some _ => false
  | _ => true

/-- JSON whitespace. -/
def jsonWs (c : Char) : Bool :=
  c = ' ' || c = '\t' || c = '\n' || c = '\r'

/-- Drop leading JSON whitespace. -/
def skipWs (l : List Char) : List Char := l.dropWhile jsonWs

/-- Value of a hexadecimal digit. -/
def hexVal (c : Char) : Option Nat :=
  if c.isDigit then some (c.toNat - '0'.toNat)
  else if 'a' ≤ c ∧ c ≤ 'f' then some (c.toNat - 'a'.toNat + 10)
  else if 'A' ≤ c ∧ c ≤ 'F' then some (c.toNat - 'A'.toNat + 10)
  else none

/-- Parse the body of a JSON string literal after the opening quote,
returning the decoded characters and the rest of the input.  Basic
escapes and `\uXXXX` (outside surrogate pairs) are supported; an
unescaped control character or an unterminated literal is an error. -/
def parseStringBody : List Char → Option (List Char × List Char)
  | [] => none
  | '"' :: rest => some ([], rest)
  | '\\' :: 'u' :: h1 :: h2 :: h3 :: h4 :: rest =>
    match hexVal h1, hexVal h2, hexVal h3, hexVal h4 with
    | some a, some b, some c, some d =>
      (parseStringBody rest).map
        (fun p => (Char.ofNat (((a * 16 + b) * 16 + c) * 16 + d) :: p.1, p.2))
    | _, _, _, _ => none
  | '\\' :: e :: rest =>
    (match e with
     | '"' => some '"'
     | '\\' => some '\\'
     | '/' => some '/'
     | 'b' => some '\x08'
     | 'f' => some '\x0c'
     | 'n' => some '\n'
     | 'r' => some '\r'
     | 't' => some '\t'
     | _ => none).bind
      (fun c => (parseStringBody rest).map
        (fun (p : List Char × List Char) => (c :: p.1, p.2)))
  | c :: rest =>
    if c.toNat < 32 then none
    else (parseStringBody rest).map (fun p => (c :: p.1, p.2))

/-- Parse a JSON integer literal (strict: no leading zeros, no sign
besides a leading minus; fractions and exponents are out of scope). -/
def parseNumFrom (l : List Char) : Option (Json × List Char) :=
  let (neg, l') := match l with
    | '-' :: rest => (true, rest)
    | _ => (false, l)
  let digits := l'.takeWhile Char.isDigit
  let rest := l'.dropWhile Char.isDigit
  if digits.isEmpty then none
  else if 1 < digits.length ∧ digits.headD '0' = '0' then none
  else
    let n : Nat := digits.foldl (fun acc c => acc * 10 + (c.toNat - '0'.toNat)) 0
    some (.num (if neg then -(n : Int) else (n : Int)), rest)

mutual

/-- Recursive-descent JSON value parser with fuel. -/
def parseVal : Nat → List Char → Option (Json × List Char)
  | 0, _ => none
  | fuel + 1, l =>
    match skipWs l with
    | '{' :: rest => parseObjBody fuel (skipWs rest) true []
    | '[' :: rest => parseArrBody fuel (skipWs rest) true []
    | '"' :: rest => (parseStringBody rest).map (fun p => (.str (String.mk p.1), p.2))
    | 't' :: 'r' :: 'u' :: 'e' :: rest => some (.bool true, rest)
    | 'f' :: 'a' :: 'l' :: 's' :: 'e' :: rest => some (.bool false, rest)
    | 'n' :: 'u' :: 'l' :: 'l' :: rest => some (.null, rest)
    | l' => parseNumFrom l'

/-- Parse the members of a JSON object after the opening brace. -/
def parseObjBody : Nat → List Char → Bool → List (String × Json) → Option (Json × List Char)
  | 0, _, _, _ => none
  | fuel + 1, l, first, acc =>
    match l with
    | '}' :: rest => if first then some (.obj acc.reverse, rest) else none
    | '"' :: rest =>
      match parseStringBody rest with
      | none => none
      | some (key, afterKey) =>
        match skipWs afterKey with
        | ':' :: afterColon =>
          match parseVal fuel afterColon with
          | none => none
          | some (v, afterVal) =>
            match skipWs afterVal with
            | ',' :: afterComma =>
              parseObjBody fuel (skipWs afterComma) false ((String.mk key, v) :: acc)
            | '}' :: rest' => some (.obj (((String.mk key, v) :: acc).reverse), rest')
            | _ => none
        | _ => none
    | _ => none

/-- Parse the elements of a JSON array after the opening bracket. -/
def parseArrBody : Nat → List Char → Bool → List Json → Option (Json × List Char)
  | 0, _, _, _ => none
  | fuel + 1, l, first, acc =>
    match l with
    | ']' :: rest => if first then some (.arr acc.reverse, rest) else none
    | _ =>
      match parseVal fuel l with
      | none => none
      | some (v, afterVal) =>
        match skipWs afterVal with
        | ',' :: afterComma => parseArrBody fuel afterComma false (v :: acc)
        | ']' :: rest' => some (.arr ((v :: acc).reverse), rest')
        | _ => none

end

/-- Model of `json.loads`: parse one JSON value and require the remainder to be
whitespace only. -/
def jsonParse (s : String) : Option Json :=
  match parseVal (s.data.length + 1) s.data with
  | some (j, rest) => if (skipWs rest).isEmpty then some j else none
  | none => none

/-- The fixed strings of the marker-block regex in `scrape_linktree_data`. -/
def scriptOpen : List Char := "<script".data

/-- The identifying attribute the regex requires inside the tag. -/
def idMark : List Char := "id=\"__NEXT_DATA__\"".data

/-- The closing tag that ends the captured block. -/
def closeTag : List Char := "</script>".data

/-- Substring test on character lists. -/
def containsSub (pat : List Char) : List Char → Bool
  | [] => pat.isEmpty
  | l@(_ :: rest) => pat.isPrefixOf l || containsSub pat rest

/-- Split at the first occurrence of `pat`, returning the part before it
and the part after it. -/
def splitAtSub (pat : List Char) : List Char → Option (List Char × List Char)
  | [] => if pat.isEmpty then some ([], []) else none
  | l@(c :: rest) =>
    if pat.isPrefixOf l then some ([], l.drop pat.length)
    else (splitAtSub pat rest).map (fun p => (c :: p.1, p.2))

/-- One attempt of the marker-block regex anchored at the start of `l`:
the literal `<script`, the identifying attribute somewhere among the
following non-`>` characters, the first `>` after them, and a lazily
captured body ending at the first `</script>`. -/
def matchAt (l : List Char) : Option (List Char) :=
  if scriptOpen.isPrefixOf l then
    let rest := l.drop scriptOpen.length
    let inner := rest.takeWhile (fun c => c != '>')
    if inner.length < rest.length ∧ containsSub idMark inner then
      (splitAtSub closeTag (rest.drop (inner.length + 1))).map (fun p => p.1)
    else none
  else none

/-- Leftmost search of the marker-block regex: try every start position
in order, as `re.search` does. -/
def locateList : List Char → Option (List Char)
  | [] => none
  | l@(_ :: rest) =>
    match matchAt l with
    | some c => some c
    | none => locateList rest

/-- The regex search of `scrape_linktree_data`: locate the
`__NEXT_DATA__` script block and capture its body. -/
def locateNextData (doc : String) : Option String :=
  (locateList doc.data).map String.mk

/-- Python subscripting `j[k]`: `KeyError` on a missing key,
`TypeError` on a non-mapping. -/
def getItem (j : Json) (k : String) : Except PyErr Json :=
  match j with
  | .obj kvs =>
    match objGet kvs k with
    | some v => .ok v
    | none => .error (.keyError k)
  | _ => .error .typeError

/-- Python `j.get(k, d)`: default on a missing key, `AttributeError`
on a non-mapping. -/
def dictGetD (j : Json) (k : String) (d : Json) : Except PyErr Json :=
  match j with
  | .obj kvs => .ok ((objGet kvs k).getD d)
  | _ => .error .attributeError

/-- The value `scrape_linktree_data` returns: the four entries of its
result dictionary. -/
structure Scraped where
  profilePictureUrl : Json
  username : Json
  socialLinks : Json
  links : Json

/-- The fixed-path navigation of `scrape_linktree_data` over the parsed
payload: `props`, `pageProps`, `account`, `profilePictureUrl` and
`username` are mandatory subscripts, while `socialLinks` and `links`
are read with `.get(..., [])` and default to empty lists. -/
def scrapeJson (j : Json) : Except PyErr Scraped :=
  match getItem j "props" with
  | .error e => .error e
  | .ok props =>
    match getItem props "pageProps" with
    | .error e => .error e
    | .ok pageProps =>
      match getItem pageProps "account" with
      | .error e => .error e
      | .ok account =>
        match getItem account "profilePictureUrl" with
        | .error e => .error e
        | .ok ppu =>
          match getItem account "username" with
          | .error e => .error e
          | .ok un =>
            match dictGetD pageProps "socialLinks" (.arr []) with
            | .error e => .error e
            | .ok sl =>
              match dictGetD pageProps "links" (.arr []) with
              | .error e => .error e
              | .ok lk => .ok ⟨ppu, un, sl, lk⟩

/-- Model of `scrape_linktree_data` on the document text: locate the marker
block (`ValueError` when absent), parse it as JSON (`JSONDecodeError`
when malformed), then navigate the fixed path. -/
def scrape (doc : String) : Except PyErr Scraped :=
  match locateNextData doc with
  | none => .error (.valueError "Could not find the __NEXT_DATA__ script tag.")
  | some c =>
    match jsonParse c with
    | none => .error .jsonDecodeError
    | some j => scrapeJson j

/-- The dictionary literal `scrape_linktree_data` returns. -/
def scrapedToDict (s : Scraped) : List (String × Json) :=
  [ ("profile_picture_url", s.profilePictureUrl),
    ("username", s.username),
    ("social_links", s.socialLinks),
    ("links", s.links) ]

/-- The data `generate_html` interpolates into the page: the username
value and the two normalized sequences, plus the skip diagnostics it
prints. -/
structure RenderModel where
  username : Json
  socialItems : List SocialItem
  linkItems : List LinkItem
  diagnostics : List (Nat × String)

/-- Python iteration over a value: lists yield their elements, strings
their characters, mappings their keys; other values raise `TypeError`. -/
def pyIter : Json → Except PyErr (List Json)
  | .arr xs => .ok xs
  | .str s => .ok (s.data.map (fun c => .str (String.mk [c])))
  | .obj kvs => .ok (kvs.map (fun p => .str p.1))
  | _ => .error .typeError

/-- Model of `generate_html(data)`: username with fallback "athoye", then the
social-links loop, then the links loop, in program order. -/
def generateHtml (data : List (String × Json)) : Except PyErr RenderModel :=
  match pyIter ((objGet data "social_links").getD (.arr [])) with
  | .error e => .error e
  | .ok socialJs =>
    match normalizeSocial socialJs with
    | .error e => .error e
    | .ok socialItems =>
      match pyIter ((objGet data "links").getD (.arr [])) with
      | .error e => .error e
      | .ok linkJs =>
        match normalizeLinksAux 0 linkJs with
        | .error e => .error e
        | .ok (linkItems, diags) =>
          .ok ⟨(objGet data "username").getD (.str "athoye"), socialItems, linkItems, diags⟩

/-- Extraction followed by page generation, as `build_site` chains them. -/
def pipeline (doc : String) : Except PyErr RenderModel :=
  match scrape doc with
  | .error e => .error e
  | .ok s => generateHtml (scrapedToDict s)

/-- Model of `build_site`: the files written to the output directory, in order,
together with the exception that aborted the run if one did.  The
avatar download is a boundary collaborator and never raises; the flag
records whether it succeeded and wrote its file. -/
def buildSite (fetchOk : Bool) (doc : String) : List String × Option PyErr :=
  match scrape doc with
  | .error e => ([], some e)
  | .ok s =>
    let avatarFiles := if fetchOk then ["profile_picture.jpg"] else []
    match generateHtml (scrapedToDict s) with
    | .error e => (avatarFiles, some e)
    | .ok _ => (avatarFiles ++ ["index.html", "style.css"], none)

/-- Whether the effective `title` field of a link mapping is blank
after trimming — the condition under which `_display_title` falls back
to the host-derived title. -/
def titleBlankB (kvs : List (String × Json)) : Bool :=
  match orEmptyStr (objGet kvs "title") with
  | .str s => pyStrip s == ""
  | _ => false

/-- Title fallback as the specification words it: strip a LEADING
"www." prefix from the host, take the portion before the first dot,
replace hyphens with spaces, title-case.  Compared below against the
code's derivation, which removes every occurrence of "www.". -/
def specLeadingWwwTitle (host : String) : String :=
  pyTitle (pyReplace (beforeDot
    (if "www.".data.isPrefixOf host.data then String.mk (host.data.drop 4) else host)) "-" " ")

/-- Minimal input document of the round-trip scenario. -/
def c2doc : String := "<script id=\"__NEXT_DATA__\">\x7b\"props\":\x7b\"pageProps\":\x7b\"account\":\x7b\"username\":\"alice\",\"profilePictureUrl\":\"http://x/img.jpg\"\x7d,\"socialLinks\":[\x7b\"type\":\"twitter\",\"url\":\"http://t\"\x7d],\"links\":[\x7b\"title\":\"Kaggle\",\"url\":\"http://kaggle.com/alice\"\x7d,\x7b\"url\":\"http://example.org/thing\"\x7d,\"not-a-mapping\"]\x7d\x7d\x7d</script>"

/-- Input document whose payload carries the mandatory account fields
but no `socialLinks` and no `links` collections. -/
def c3doc : String := "<script id=\"__NEXT_DATA__\">\x7b\"props\":\x7b\"pageProps\":\x7b\"account\":\x7b\"profilePictureUrl\":\"u\",\"username\":\"alice\"\x7d\x7d\x7d\x7d</script>"

/-- Input document whose payload carries an account object without a
`username` field. -/
def c5doc : String := "<script id=\"__NEXT_DATA__\">\x7b\"props\":\x7b\"pageProps\":\x7b\"account\":\x7b\"profilePictureUrl\":\"u\"\x7d,\"socialLinks\":[],\"links\":[]\x7d\x7d\x7d</script>"

/-- C1, counterexample: a mapping entry whose `title` field is the
truthy non-string `1` makes the links loop raise `AttributeError`
(Python evaluates `(1).strip()`), contradicting "link normalization
never raises ... regardless of the types of its fields". -/
theorem c1_links_never_raise_counterexample :
    normalizeLinksAux 0 [Json.obj [("title", Json.num 1)]] =
      .error PyErr.attributeError := rfl

/-- C2: on the round-trip document, extraction yields username "alice",
exactly one normalized social-link entry, and exactly two normalized
link entries (the non-mapping third entry dropped with a diagnostic at
position 2); the second link entry has displayTitle "Example" and
subtitle "Visit Example". -/
theorem c2_round_trip :
    pipeline c2doc = .ok ⟨Json.str "alice",
      [⟨"TWITTER", "http://t", "T"⟩],
      [⟨"Kaggle", "http://kaggle.com/alice", "Datasets, notebooks and ML experiments."⟩,
       ⟨"Example", "http://example.org/thing", "Visit Example"⟩],
      [(2, "str")]⟩ ∧
    Except.map Scraped.username (scrape c2doc) = .ok (Json.str "alice") :=
  ⟨rfl, rfl⟩

/-- C3, counterexample: a payload with the account fields but without
the `socialLinks` and `links` collections does NOT make extraction
fail — `.get(..., [])` substitutes empty lists — contradicting the
claim that their absence is a fatal path failure. -/
theorem c3_path_failure_counterexample :
    scrape c3doc = .ok ⟨Json.str "u", Json.str "alice", Json.arr [], Json.arr []⟩ := rfl

/-- C4, counterexample: for a blank title and url host "xwww.com" the
code removes every occurrence of "www." (giving "Xcom"), while the
claimed derivation strips only a leading "www." prefix (giving
"Xwww"). -/
theorem c4_host_title_counterexample :
    netlocOf "http://xwww.com" = .ok "xwww.com" ∧
    displayTitleE [("url", Json.str "http://xwww.com")] = .ok "Xcom" ∧
    specLeadingWwwTitle "xwww.com" = "Xwww" ∧
    ("Xcom" : String) ≠ "Xwww" :=
  ⟨rfl, rfl, rfl, by decide⟩

/-- C5, counterexample: when the account object has no `username`
field, extraction raises `KeyError` and the run fails — no fallback
placeholder is substituted at extraction time. -/
theorem c5_username_fallback_counterexample :
    scrape c5doc = .error (.keyError "username") := rfl

/-- C7, counterexample: a social-link entry with a usable url but a
non-string `type` field (here JSON `null`) makes the social-links loop
raise `AttributeError` (Python evaluates `None.upper()`) instead of
being dropped or emitted. -/
theorem c7_social_normalization_counterexample :
    normalizeSocial [Json.obj [("type", Json.null), ("url", Json.str "http://x")]] =
      .error PyErr.attributeError := rfl

/-- C8, counterexample: for the url field " http://x " (non-blank after
trimming) the normalized url is the TRIMMED string "http://x", not the
entry's url field itself. -/
theorem c8_url_passthrough_counterexample :
    normalizeLinksAux 0 [Json.obj [("url", Json.str " http://x ")]] =
      .ok ([⟨"Link", "http://x", "Visit Link"⟩], []) ∧
    ("http://x" : String) ≠ " http://x " :=
  ⟨rfl, by decide⟩

/-- Any title `_display_title` returns is a nonempty string. -/
theorem displayTitleE_ok_ne_empty (kvs : List (String × Json)) (t : String)
    (h : displayTitleE kvs = .ok t) : t ≠ "" := by
  unfold displayTitleE at h
  split at h
  · split at h
    · split at h
      · split at h
        · exact absurd h (by simp)
        · split at h
          · simp only [Except.ok.injEq] at h
            subst h; decide
          · split at h
            · simp only [Except.ok.injEq] at h
              subst h; decide
            · rename_i hne
              simp only [Except.ok.injEq] at h
              subst h; exact hne
      · exact absurd h (by simp)
    · rename_i hne
      simp only [Except.ok.injEq] at h
      subst h; exact hne
  · exact absurd h (by simp)

/-- Any url `_safe_link_url` accepts is a nonempty string. -/
theorem safeLinkUrl_ne_empty (v : Option Json) (u : String)
    (h : safeLinkUrl v = some u) : u ≠ "" := by
  unfold safeLinkUrl at h
  split at h
  · split at h
    · exact absurd h (by simp)
    · rename_i hne
      simp only [Option.some.injEq] at h
      subst h; exact hne
  · exact absurd h (by simp)

/-- The normalized link url is never the empty string: it is either a
stripped non-blank url or the "#" placeholder. -/
theorem urlNormalized_ne_empty (v : Option Json) : urlNormalized v ≠ "" := by
  unfold urlNormalized
  cases hs : safeLinkUrl v with
  | none => decide
  | some u => exact safeLinkUrl_ne_empty v u hs

/-- C10: every normalized link entry the links loop emits has a
nonempty displayTitle and a url that is a present, nonempty string
(the "#" placeholder allowed). -/
theorem c10_link_entry_invariant (raws : List Json) (idx : Nat)
    (res : List LinkItem × List (Nat × String))
    (h : normalizeLinksAux idx raws = .ok res) :
    ∀ e ∈ res.1, e.displayTitle ≠ "" ∧ e.url ≠ "" := by
  induction raws generalizing idx res with
  | nil =>
    unfold normalizeLinksAux at h
    simp only [Except.ok.injEq] at h
    subst h
    intro e he
    exact absurd he (by simp)
  | cons j rest ih =>
    cases j with
    | obj kvs =>
      unfold normalizeLinksAux at h
      dsimp only at h
      cases hd : displayTitleE kvs with
      | error e => rw [hd] at h; exact absurd h (by simp)
      | ok title =>
        rw [hd] at h
        cases hr : normalizeLinksAux (idx + 1) rest with
        | error e => rw [hr] at h; exact absurd h (by simp)
        | ok p =>
          rw [hr] at h
          obtain ⟨items, diags⟩ := p
          simp only [Except.ok.injEq] at h
          subst h
          intro e he
          rcases List.mem_cons.mp he with heq | hmem
          · subst heq
            exact ⟨displayTitleE_ok_ne_empty kvs title hd,
                   urlNormalized_ne_empty (objGet kvs "url")⟩
          · exact ih (idx + 1) (items, diags) hr e hmem
    | null =>
      unfold normalizeLinksAux at h
      dsimp only at h
      cases hr : normalizeLinksAux (idx + 1) rest with
      | error e => rw [hr] at h; exact absurd h (by simp)
      | ok p =>
        rw [hr] at h
        obtain ⟨items, diags⟩ := p
        simp only [Except.ok.injEq] at h
        subst h
        intro e he
        exact ih (idx + 1) (items, diags) hr e he
    | bool b =>
      unfold normalizeLinksAux at h
      dsimp only at h
      cases hr : normalizeLinksAux (idx + 1) rest with
      | error e => rw [hr] at h; exact absurd h (by simp)
      | ok p =>
        rw [hr] at h
        obtain ⟨items, diags⟩ := p
        simp only [Except.ok.injEq] at h
        subst h
        intro e he
        exact ih (idx + 1) (items, diags) hr e he
    | num n =>
      unfold normalizeLinksAux at h
      dsimp only at h
      cases hr : normalizeLinksAux (idx + 1) rest with
      | error e => rw [hr] at h; exact absurd h (by simp)
      | ok p =>
        rw [hr] at h
        obtain ⟨items, diags⟩ := p
        simp only [Except.ok.injEq] at h
        subst h
        intro e he
        exact ih (idx + 1) (items, diags) hr e he
    | str s =>
      unfold normalizeLinksAux at h
      dsimp only at h
      cases hr : normalizeLinksAux (idx + 1) rest with
      | error e => rw [hr] at h; exact absurd h (by simp)
      | ok p =>
        rw [hr] at h
        obtain ⟨items, diags⟩ := p
        simp only [Except.ok.injEq] at h
        subst h
        intro e he
        exact ih (idx + 1) (items, diags) hr e he
    | arr xs =>
      unfold normalizeLinksAux at h
      dsimp only at h
      cases hr : normalizeLinksAux (idx + 1) rest with
      | error e => rw [hr] at h; exact absurd h (by simp)
      | ok p =>
        rw [hr] at h
        obtain ⟨items, diags⟩ := p
        simp only [Except.ok.injEq] at h
        subst h
        intro e he
        exact ih (idx + 1) (items, diags) hr e he

/-- Witness for C10 at a concrete input: the empty mapping normalizes
to the entry ("Link", "#", "Visit Link"), which satisfies the
invariant. -/
theorem c10_link_entry_invariant_witness :
    normalizeLinksAux 0 [Json.obj []] = .ok ([⟨"Link", "#", "Visit Link"⟩], []) ∧
    (("Link" : String) ≠ "" ∧ ("#" : String) ≠ "") :=
  ⟨rfl, c10_link_entry_invariant [Json.obj []] 0 ([⟨"Link", "#", "Visit Link"⟩], [])
    rfl ⟨"Link", "#", "Visit Link"⟩ (List.Mem.head _)⟩

/-- Totality of the links loop on well-typed entries: when every entry
is either a non-mapping or a mapping on which title derivation
succeeds, the loop returns normally, its diagnostics are exactly the
positions and kinds of the skipped non-mappings, and every mapping
contributes one normalized entry. -/
theorem normalizeLinksAux_total (raws : List Json) :
    ∀ idx : Nat, raws.all linkEntryOk = true →
    ∃ items : List LinkItem,
      normalizeLinksAux idx raws = .ok (items, diagsOf idx raws) ∧
      items.length = (raws.filter isObjB).length := by
  induction raws with
  | nil => exact fun idx _ => ⟨[], rfl, rfl⟩
  | cons j rest ih =>
    intro idx h
    rw [List.all_cons, Bool.and_eq_true] at h
    obtain ⟨hj, hrest⟩ := h
    obtain ⟨items, hrec, hlen⟩ := ih (idx + 1) hrest
    cases j with
    | obj kvs =>
      unfold linkEntryOk at hj
      dsimp only at hj
      cases hd : displayTitleE kvs with
      | error e => rw [hd] at hj; simp at hj
      | ok title =>
        refine ⟨⟨title, urlNormalized (objGet kvs "url"),
                 subtitleCaught title (safeLinkUrl (objGet kvs "url"))⟩ :: items, ?_, ?_⟩
        · unfold normalizeLinksAux
          dsimp only
          rw [hd, hrec]
          simp [diagsOf, isObjB]
        · simp [List.filter_cons, isObjB, hlen]
    | null =>
      refine ⟨items, ?_, ?_⟩
      · unfold normalizeLinksAux
        dsimp only
        rw [hrec]
        simp [diagsOf, isObjB, pyTypeName]
      · simp [List.filter_cons, isObjB, hlen]
    | bool b =>
      refine ⟨items, ?_, ?_⟩
      · unfold normalizeLinksAux
        dsimp only
        rw [hrec]
        simp [diagsOf, isObjB, pyTypeName]
      · simp [List.filter_cons, isObjB, hlen]
    | num n =>
      refine ⟨items, ?_, ?_⟩
      · unfold normalizeLinksAux
        dsimp only
        rw [hrec]
        simp [diagsOf, isObjB, pyTypeName]
      · simp [List.filter_cons, isObjB, hlen]
    | str s =>
      refine ⟨items, ?_, ?_⟩
      · unfold normalizeLinksAux
        dsimp only
        rw [hrec]
        simp [diagsOf, isObjB, pyTypeName]
      · simp [List.filter_cons, isObjB, hlen]
    | arr xs =>
      refine ⟨items, ?_, ?_⟩
      · unfold normalizeLinksAux
        dsimp only
        rw [hrec]
        simp [diagsOf, isObjB, pyTypeName]
      · simp [List.filter_cons, isObjB, hlen]

/-- C1 (amended): link normalization never raises on sequences whose
mapping entries all have title derivation succeed — in particular
whenever the `title` and `url` fields are absent, falsy, or strings
with a well-formed authority.  Non-mappings are skipped with a
diagnostic recording their position and kind, and every mapping yields
exactly one normalized entry.  (A truthy non-string `title` or `url`
field, or a mismatched-bracket authority, makes the loop raise, per
the counterexample.) -/
theorem c1_links_never_raise_amended (raws : List Json)
    (h : raws.all linkEntryOk = true) :
    ∃ items : List LinkItem,
      normalizeLinksAux 0 raws = .ok (items, diagsOf 0 raws) ∧
      items.length = (raws.filter isObjB).length :=
  normalizeLinksAux_total raws 0 h

/-- Witness for C1 (amended) at a concrete input: a non-mapping entry
followed by a well-typed mapping entry. -/
theorem c1_links_never_raise_amended_witness :
    ([Json.str "zz", Json.obj [("title", Json.str "T")]].all linkEntryOk = true) ∧
    (∃ items : List LinkItem,
      normalizeLinksAux 0 [Json.str "zz", Json.obj [("title", Json.str "T")]] =
        .ok (items, diagsOf 0 [Json.str "zz", Json.obj [("title", Json.str "T")]]) ∧
      items.length =
        ([Json.str "zz", Json.obj [("title", Json.str "T")]].filter isObjB).length) :=
  ⟨rfl, c1_links_never_raise_amended _ rfl⟩

/-- Splitting a list by whether `f` emits: the emitted entries and the
dropped entries together account for the whole input. -/
theorem length_filterMap_add_filter_isNone {α β : Type} (f : α → Option β) (l : List α) :
    (l.filterMap f).length + (l.filter (fun x => (f x).isNone)).length = l.length := by
  induction l with
  | nil => rfl
  | cons x xs ih =>
    cases hfx : f x with
    | none =>
      simp [List.filterMap_cons, List.filter_cons, hfx]
      omega
    | some b =>
      simp [List.filterMap_cons, List.filter_cons, hfx]
      omega

/-- Totality of the social-links loop on well-typed entries: when every
entry with a usable url has an absent or string `type` field, the loop
returns exactly the per-entry emissions in order. -/
theorem normalizeSocial_total (raws : List Json) (h : raws.all socialEntryOk = true) :
    normalizeSocial raws = .ok (raws.filterMap emitSocial) := by
  induction raws with
  | nil => rfl
  | cons j rest ih =>
    rw [List.all_cons, Bool.and_eq_true] at h
    obtain ⟨hj, hrest⟩ := h
    have hr := ih hrest
    cases j with
    | obj kvs =>
      unfold socialEntryOk at hj
      dsimp only at hj
      unfold normalizeSocial
      dsimp only
      cases hu : safeLinkUrl (objGet kvs "url") with
      | none =>
        simp only [List.filterMap_cons]
        simp [emitSocial, hu, hr]
      | some u =>
        rw [hu] at hj
        cases ht : objGet kvs "type" with
        | none =>
          simp only [List.filterMap_cons]
          simp [emitSocial, hu, ht, hr]
        | some tv =>
          rw [ht] at hj
          cases tv with
          | str s =>
            simp only [List.filterMap_cons]
            simp [emitSocial, hu, ht, hr]
          | null => simp at hj
          | bool b => simp at hj
          | num n => simp at hj
          | arr xs => simp at hj
          | obj o => simp at hj
    | null =>
      unfold normalizeSocial
      dsimp only
      simp only [List.filterMap_cons]
      simp [emitSocial, hr]
    | bool b =>
      unfold normalizeSocial
      dsimp only
      simp only [List.filterMap_cons]
      simp [emitSocial, hr]
    | num n =>
      unfold normalizeSocial
      dsimp only
      simp only [List.filterMap_cons]
      simp [emitSocial, hr]
    | str s =>
      unfold normalizeSocial
      dsimp only
      simp only [List.filterMap_cons]
      simp [emitSocial, hr]
    | arr xs =>
      unfold normalizeSocial
      dsimp only
      simp only [List.filterMap_cons]
      simp [emitSocial, hr]

/-- C7 (amended): the social-links loop drops exactly the entries that
are not mappings or lack a usable url (the output length decreases by
exactly their count), and every emitted entry carries the uppercased
`type` field ("LINK" when absent), the trimmed url, and the icon
glyph — provided every entry's `type` field, when present alongside a
usable url, is a string.  (An entry with a usable url and a present
non-string `type` makes the loop raise, per the counterexample.) -/
theorem c7_social_normalization_amended (raws : List Json)
    (h : raws.all socialEntryOk = true) :
    normalizeSocial raws = .ok (raws.filterMap emitSocial) ∧
    (raws.filterMap emitSocial).length
      + (raws.filter (fun j => (emitSocial j).isNone)).length = raws.length :=
  ⟨normalizeSocial_total raws h, length_filterMap_add_filter_isNone emitSocial raws⟩

/-- Witness for C7 (amended) at a concrete input: a well-typed mapping
entry with padded url, followed by a non-mapping. -/
theorem c7_social_normalization_amended_witness :
    ([Json.obj [("url", Json.str " http://s "), ("type", Json.str "tw")],
       Json.num 3].all socialEntryOk = true) ∧
    (normalizeSocial [Json.obj [("url", Json.str " http://s "), ("type", Json.str "tw")],
        Json.num 3] =
      .ok ([Json.obj [("url", Json.str " http://s "), ("type", Json.str "tw")],
        Json.num 3].filterMap emitSocial) ∧
     ([Json.obj [("url", Json.str " http://s "), ("type", Json.str "tw")],
        Json.num 3].filterMap emitSocial).length
       + ([Json.obj [("url", Json.str " http://s "), ("type", Json.str "tw")],
        Json.num 3].filter (fun j => (emitSocial j).isNone)).length = 2) :=
  ⟨rfl, c7_social_normalization_amended _ rfl⟩

/-- C4 (amended): when the `title` field is absent or blank after
trimming and the `url` field is a string whose authority parses, the
displayTitle is derived from the host by removing EVERY occurrence of
the substring "www." (not only a leading prefix), taking the portion
before the first dot, replacing hyphens with spaces and title-casing,
with the literal "Link" substituted for an empty result (in particular
when no usable URL exists). -/
theorem c4_host_title_amended (kvs : List (String × Json)) (u nl : String)
    (ht : titleBlankB kvs = true)
    (hu : orEmptyStr (objGet kvs "url") = Json.str u)
    (hn : netlocOf u = .ok nl) :
    displayTitleE kvs = .ok (hostFallbackTitle nl) := by
  unfold titleBlankB at ht
  unfold displayTitleE
  cases hts : orEmptyStr (objGet kvs "title") with
  | str s =>
    rw [hts] at ht
    simp only [beq_iff_eq] at ht
    dsimp only
    rw [if_pos ht, hu]
    dsimp only
    rw [hn]
    unfold hostFallbackTitle
    by_cases h1 : pyReplace nl "www." "" = ""
    · simp [h1]
    · by_cases h2 : pyTitle (pyReplace (beforeDot (pyReplace nl "www." "")) "-" " ") = ""
      · simp [h1, h2]
      · simp [h1, h2]
  | null => rw [hts] at ht; simp at ht
  | bool b => rw [hts] at ht; simp at ht
  | num n => rw [hts] at ht; simp at ht
  | arr xs => rw [hts] at ht; simp at ht
  | obj o => rw [hts] at ht; simp at ht

/-- Witness for C4 (amended) at the specification's own example: host
"example-site.com" yields displayTitle "Example Site". -/
theorem c4_host_title_amended_witness :
    titleBlankB [("url", Json.str "https://example-site.com/x")] = true ∧
    orEmptyStr (objGet [("url", Json.str "https://example-site.com/x")] "url") =
      Json.str "https://example-site.com/x" ∧
    netlocOf "https://example-site.com/x" = .ok "example-site.com" ∧
    displayTitleE [("url", Json.str "https://example-site.com/x")] = .ok "Example Site" :=
  ⟨rfl, rfl, rfl,
    (c4_host_title_amended [("url", Json.str "https://example-site.com/x")]
      "https://example-site.com/x" "example-site.com" rfl rfl rfl).trans rfl⟩

/-- Subscripting an object with a missing key raises `KeyError`. -/
theorem getItem_obj_none (kvs : List (String × Json)) (k : String)
    (h : objGet kvs k = none) : getItem (Json.obj kvs) k = .error (.keyError k) := by
  unfold getItem
  dsimp only
  rw [h]

/-- Subscripting an object with a present key returns its value. -/
theorem getItem_obj_some (kvs : List (String × Json)) (k : String) (v : Json)
    (h : objGet kvs k = some v) : getItem (Json.obj kvs) k = .ok v := by
  unfold getItem
  dsimp only
  rw [h]

/-- Reading an object with `.get` returns the value or the default. -/
theorem dictGetD_obj (kvs : List (String × Json)) (k : String) (d : Json) :
    dictGetD (Json.obj kvs) k d = .ok ((objGet kvs k).getD d) := rfl

/-- C6: the subtitle is determined by first looking up the trimmed,
lower-cased displayTitle in the override table; failing that, by
looking up the host key of the url; failing that (or on a missing or
empty url, or a parse error) it is "Visit " followed by the
displayTitle.  In particular any title whose trimmed lower-casing is
"last.fm" gets the fixed override text. -/
theorem c6_subtitle_chain (t : String) (u : Option String) :
    (pyLower (pyStrip t) = "last.fm" →
      subtitleCaught t u = "Listening history & scrobbles.") ∧
    (∀ s : String, SUBTITLE_OVERRIDES.lookup (pyLower (pyStrip t)) = some s →
      subtitleCaught t u = s) ∧
    (SUBTITLE_OVERRIDES.lookup (pyLower (pyStrip t)) = none →
      (u = none ∨ u = some "") → subtitleCaught t u = "Visit " ++ t) ∧
    (∀ v nl : String, SUBTITLE_OVERRIDES.lookup (pyLower (pyStrip t)) = none →
      u = some v → v ≠ "" → netlocOf v = .ok nl →
      subtitleCaught t u = (SUBTITLE_OVERRIDES.lookup (hostKey nl)).getD ("Visit " ++ t)) := by
  refine ⟨?_, ?_, ?_, ?_⟩
  · intro hk
    unfold subtitleCaught subtitleFor
    rw [hk]
    rfl
  · intro s hs
    unfold subtitleCaught subtitleFor
    rw [hs]
  · intro hn hu
    unfold subtitleCaught subtitleFor
    rw [hn]
    rcases hu with h | h
    · subst h; rfl
    · subst h
      dsimp only
      rw [if_pos rfl]
  · intro v nl hn huv hne hnl
    subst huv
    unfold subtitleCaught subtitleFor
    rw [hn]
    dsimp only
    rw [if_neg hne, hnl]
    dsimp only
    cases h2 : SUBTITLE_OVERRIDES.lookup (hostKey nl) with
    | none => simp [h2]
    | some s2 => simp [h2]

/-- Witness for C6 at a concrete input: a padded mixed-case "Last.fm"
title gets the override text. -/
theorem c6_subtitle_chain_witness :
    pyLower (pyStrip " LAST.fm ") = "last.fm" ∧
    subtitleCaught " LAST.fm " (some "http://z") = "Listening history & scrobbles." :=
  ⟨rfl, (c6_subtitle_chain " LAST.fm " (some "http://z")).1 rfl⟩

/-- C8 (amended): the normalized url of a link mapping is the TRIMMED
`url` field when that field is a string non-blank after trimming, and
the literal "#" otherwise (absent, non-string, or blank); the links
loop emits exactly that value as the entry's url. -/
theorem c8_url_normalization_amended :
    (∀ v : Option Json, urlNormalized v =
      (match v with
       | some (.str s) => if pyStrip s = "" then "#" else pyStrip s
       | _ => "#")) ∧
    (∀ (kvs : List (String × Json)) (t : String), displayTitleE kvs = .ok t →
      ∃ st : String, normalizeLinksAux 0 [Json.obj kvs] =
        .ok ([⟨t, urlNormalized (objGet kvs "url"), st⟩], [])) := by
  constructor
  · intro v
    unfold urlNormalized safeLinkUrl
    cases v with
    | none => rfl
    | some j =>
      cases j with
      | str s =>
        dsimp only
        by_cases h : pyStrip s = ""
        · simp [h]
        · simp [h]
      | null => rfl
      | bool b => rfl
      | num n => rfl
      | arr xs => rfl
      | obj o => rfl
  · intro kvs t hd
    refine ⟨subtitleCaught t (safeLinkUrl (objGet kvs "url")), ?_⟩
    unfold normalizeLinksAux
    dsimp only
    rw [hd]
    rfl

/-- Witness for C8 (amended) at a concrete input: a padded url whose
trimming is non-blank. -/
theorem c8_url_normalization_amended_witness :
    urlNormalized (some (Json.str " https://kaggle.com ")) =
      (if pyStrip " https://kaggle.com " = "" then "#" else pyStrip " https://kaggle.com ") ∧
    (displayTitleE [("url", Json.str " https://kaggle.com ")] = .ok "Link" ∧
     ∃ st : String, normalizeLinksAux 0 [Json.obj [("url", Json.str " https://kaggle.com ")]] =
       .ok ([⟨"Link", urlNormalized (objGet [("url", Json.str " https://kaggle.com ")] "url"), st⟩], [])) :=
  ⟨c8_url_normalization_amended.1 (some (Json.str " https://kaggle.com ")),
   rfl, c8_url_normalization_amended.2 [("url", Json.str " https://kaggle.com ")] "Link" rfl⟩

/-- C3 (amended): absence of `props`, `pageProps`, `account`,
`profilePictureUrl` or `username` on the fixed extraction path aborts
extraction with a missing-key failure, but absence of the sibling
`socialLinks` or `links` collections does NOT fail — they default to
empty sequences. -/
theorem c3_path_failure_amended :
    (∀ top : List (String × Json), objGet top "props" = none →
      scrapeJson (Json.obj top) = .error (.keyError "props")) ∧
    (∀ pr : List (String × Json), objGet pr "pageProps" = none →
      scrapeJson (Json.obj [("props", Json.obj pr)]) = .error (.keyError "pageProps")) ∧
    (∀ pp : List (String × Json), objGet pp "account" = none →
      scrapeJson (Json.obj [("props", Json.obj [("pageProps", Json.obj pp)])]) =
        .error (.keyError "account")) ∧
    (∀ pp acc : List (String × Json), objGet pp "account" = some (Json.obj acc) →
      objGet acc "profilePictureUrl" = none →
      scrapeJson (Json.obj [("props", Json.obj [("pageProps", Json.obj pp)])]) =
        .error (.keyError "profilePictureUrl")) ∧
    (∀ (pp acc : List (String × Json)) (ppu un : Json),
      objGet pp "account" = some (Json.obj acc) →
      objGet acc "profilePictureUrl" = some ppu →
      objGet acc "username" = some un →
      objGet pp "socialLinks" = none →
      objGet pp "links" = none →
      scrapeJson (Json.obj [("props", Json.obj [("pageProps", Json.obj pp)])]) =
        .ok ⟨ppu, un, Json.arr [], Json.arr []⟩) := by
  refine ⟨?_, ?_, ?_, ?_, ?_⟩
  · intro top h
    unfold scrapeJson
    rw [getItem_obj_none top "props" h]
  · intro pr h
    unfold scrapeJson
    rw [getItem_obj_some [("props", Json.obj pr)] "props" (Json.obj pr) rfl]
    dsimp only
    rw [getItem_obj_none pr "pageProps" h]
  · intro pp h
    unfold scrapeJson
    rw [getItem_obj_some [("props", Json.obj [("pageProps", Json.obj pp)])] "props"
      (Json.obj [("pageProps", Json.obj pp)]) rfl]
    dsimp only
    rw [getItem_obj_some [("pageProps", Json.obj pp)] "pageProps" (Json.obj pp) rfl]
    dsimp only
    rw [getItem_obj_none pp "account" h]
  · intro pp acc h1 h2
    unfold scrapeJson
    rw [getItem_obj_some [("props", Json.obj [("pageProps", Json.obj pp)])] "props"
      (Json.obj [("pageProps", Json.obj pp)]) rfl]
    dsimp only
    rw [getItem_obj_some [("pageProps", Json.obj pp)] "pageProps" (Json.obj pp) rfl]
    dsimp only
    rw [getItem_obj_some pp "account" (Json.obj acc) h1]
    dsimp only
    rw [getItem_obj_none acc "profilePictureUrl" h2]
  · intro pp acc ppu un h1 h2 h3 h4 h5
    unfold scrapeJson
    rw [getItem_obj_some [("props", Json.obj [("pageProps", Json.obj pp)])] "props"
      (Json.obj [("pageProps", Json.obj pp)]) rfl]
    dsimp only
    rw [getItem_obj_some [("pageProps", Json.obj pp)] "pageProps" (Json.obj pp) rfl]
    dsimp only
    rw [getItem_obj_some pp "account" (Json.obj acc) h1]
    dsimp only
    rw [getItem_obj_some acc "profilePictureUrl" ppu h2]
    dsimp only
    rw [getItem_obj_some acc "username" un h3]
    dsimp only
    rw [dictGetD_obj pp "socialLinks" (Json.arr []), h4]
    dsimp only
    rw [dictGetD_obj pp "links" (Json.arr []), h5]
    rfl

/-- Witness for C3 (amended) at concrete inputs for the first and last
conjuncts. -/
theorem c3_path_failure_amended_witness :
    (objGet [("x", Json.null)] "props" = none ∧
     scrapeJson (Json.obj [("x", Json.null)]) = .error (.keyError "props")) ∧
    (scrapeJson (Json.obj [("props", Json.obj [("pageProps", Json.obj
        [("account", Json.obj [("profilePictureUrl", Json.str "p"),
          ("username", Json.str "n")])])])]) =
      .ok ⟨Json.str "p", Json.str "n", Json.arr [], Json.arr []⟩) :=
  ⟨⟨rfl, c3_path_failure_amended.1 [("x", Json.null)] rfl⟩,
   c3_path_failure_amended.2.2.2.2
     [("account", Json.obj [("profilePictureUrl", Json.str "p"), ("username", Json.str "n")])]
     [("profilePictureUrl", Json.str "p"), ("username", Json.str "n")]
     (Json.str "p") (Json.str "n") rfl rfl rfl rfl rfl⟩

/-- C5 (amended): when the account object lacks a `username` field,
extraction aborts with a missing-key failure; the fallback placeholder
"athoye" is substituted only at the HTML-generation stage, when the
data mapping handed to it has no "username" key. -/
theorem c5_username_fallback_amended :
    (∀ data : List (String × Json),
      objGet data "username" = none → objGet data "links" = none →
      objGet data "social_links" = none →
      generateHtml data = .ok ⟨Json.str "athoye", [], [], []⟩) ∧
    (∀ (pp acc : List (String × Json)) (ppu : Json),
      objGet pp "account" = some (Json.obj acc) →
      objGet acc "profilePictureUrl" = some ppu →
      objGet acc "username" = none →
      scrapeJson (Json.obj [("props", Json.obj [("pageProps", Json.obj pp)])]) =
        .error (.keyError "username")) := by
  constructor
  · intro data hun hlk hsl
    unfold generateHtml
    rw [hun, hlk, hsl]
    rfl
  · intro pp acc ppu h1 h2 h3
    unfold scrapeJson
    rw [getItem_obj_some [("props", Json.obj [("pageProps", Json.obj pp)])] "props"
      (Json.obj [("pageProps", Json.obj pp)]) rfl]
    dsimp only
    rw [getItem_obj_some [("pageProps", Json.obj pp)] "pageProps" (Json.obj pp) rfl]
    dsimp only
    rw [getItem_obj_some pp "account" (Json.obj acc) h1]
    dsimp only
    rw [getItem_obj_some acc "profilePictureUrl" ppu h2]
    dsimp only
    rw [getItem_obj_none acc "username" h3]

/-- Witness for C5 (amended) at concrete inputs for both conjuncts. -/
theorem c5_username_fallback_amended_witness :
    (objGet [("x", Json.num 1)] "username" = none ∧
     generateHtml [("x", Json.num 1)] = .ok ⟨Json.str "athoye", [], [], []⟩) ∧
    scrapeJson (Json.obj [("props", Json.obj [("pageProps", Json.obj
        [("account", Json.obj [("profilePictureUrl", Json.str "p")])])])]) =
      .error (.keyError "username") :=
  ⟨⟨rfl, c5_username_fallback_amended.1 [("x", Json.num 1)] rfl rfl rfl⟩,
   c5_username_fallback_amended.2
     [("account", Json.obj [("profilePictureUrl", Json.str "p")])]
     [("profilePictureUrl", Json.str "p")] (Json.str "p") rfl rfl rfl⟩

/-- C9: a document with no marker block makes the run abort with the
missing-data-block `ValueError` and write no output files; a document
whose located block is not valid JSON makes it abort with the
malformed-payload decode error and write no output files. -/
theorem c9_fatal_extraction_errors (fetchOk : Bool) (doc : String) :
    (locateNextData doc = none →
      buildSite fetchOk doc =
        ([], some (.valueError "Could not find the __NEXT_DATA__ script tag."))) ∧
    (∀ c : String, locateNextData doc = some c → jsonParse c = none →
      buildSite fetchOk doc = ([], some .jsonDecodeError)) := by
  constructor
  · intro h
    unfold buildSite scrape
    rw [h]
  · intro c h1 h2
    unfold buildSite scrape
    rw [h1]
    dsimp only
    rw [h2]

/-- Witness for C9 at concrete inputs: a document without the marker
block, and one whose block body is not JSON. -/
theorem c9_fatal_extraction_errors_witness :
    locateNextData "no data block here" = none ∧
    buildSite true "no data block here" =
      ([], some (.valueError "Could not find the __NEXT_DATA__ script tag.")) ∧
    locateNextData "<script id=\"__NEXT_DATA__\">nope</script>" = some "nope" ∧
    jsonParse "nope" = none ∧
    buildSite true "<script id=\"__NEXT_DATA__\">nope</script>" = ([], some .jsonDecodeError) :=
  ⟨rfl, (c9_fatal_extraction_errors true "no data block here").1 rfl, rfl, rfl,
   (c9_fatal_extraction_errors true "<script id=\"__NEXT_DATA__\">nope</script>").2 "nope" rfl rfl⟩
